import Mathlib

/-!
Verification of the MyGrammarly match-classification and text-metrics core
(`src/app.py`), shallowly embedded in Lean 4.

The embedding covers:
* `enhance_match_classification` (the spec's `classify` contract),
* `calculate_text_metrics` (the spec's `computeMetrics` contract),
* the per-match assembly loop of the `/api/check` handler
  (replacement normalization/truncation, skip-on-failure),
* the request-validation branch structure of `/api/check`.

Python floats are modelled as exact rationals (`ℚ`); Python's `round(x, 1)`
is modelled as round-half-to-even at one decimal place.  Python's `\w`
word-character class and `\s` whitespace class are modelled on their ASCII
fragments (`Char.isAlphanum`/underscore and `Char.isWhitespace`).
-/

/-- `matchesHead needle hay` is true when `needle` occurs at the start of
`hay` (character-by-character comparison). -/
def matchesHead : List Char → List Char → Bool
  | [], _ => true
  | _ :: _, [] => false
  | a :: as, b :: bs => a == b && matchesHead as bs

/-- `hasSubL needle hay` is true when `needle` occurs contiguously somewhere
in `hay`; this models Python's `needle in hay` substring test. -/
def hasSubL (needle : List Char) : List Char → Bool
  | [] => matchesHead needle []
  | c :: rest => matchesHead needle (c :: rest) || hasSubL needle rest

/-- String version of the substring test: models Python `needle in hay`. -/
def hasSub (needle hay : String) : Bool :=
  hasSubL needle.data hay.data

/-- Models Python's `str.lower()` on its ASCII fragment, character by
character (kernel-reducible, unlike `String.toLower`). -/
def lowerStr (s : String) : String :=
  ⟨s.data.map Char.toLower⟩

/-- The classification record returned by `enhance_match_classification`
(app.py lines 193-199). -/
structure Classification where
  category : String
  confidence : ℚ
  severity : String
  explanation : String
  originalIssueType : String
deriving DecidableEq

/-- Embedding of `enhance_match_classification` (app.py lines 125-199),
restricted to its two string inputs: the match's `ruleId` and
`ruleIssueType` (the source lowercases both once up front; here the
lowering is inlined at each use).  The `None`-coalescing (`or ''`) of the
source is handled at field extraction, so both arguments are plain
strings. -/
def enhance_match_classification (ruleId issueType : String) : Classification :=
  if lowerStr issueType == "misspelling" ||
     hasSub "spell" (lowerStr ruleId) ||
     hasSub "morfologic" (lowerStr ruleId) ||
     hasSub "hunspell" (lowerStr ruleId) then
    { category := "spelling", confidence := 0.95, severity := "high",
      explanation := "Likely misspelled word or typographical error",
      originalIssueType := lowerStr issueType }
  else if lowerStr issueType == "grammar" ||
          hasSub "grammar" (lowerStr ruleId) ||
          hasSub "agreement" (lowerStr ruleId) ||
          hasSub "verb" (lowerStr ruleId) ||
          hasSub "tense" (lowerStr ruleId) then
    { category := "grammar", confidence := 0.90, severity := "high",
      explanation := "Grammatical error that affects meaning",
      originalIssueType := lowerStr issueType }
  else if hasSub "punct" (lowerStr ruleId) ||
          hasSub "comma" (lowerStr ruleId) ||
          hasSub "apostrophe" (lowerStr ruleId) then
    { category := "punctuation", confidence := 0.85, severity := "medium",
      explanation := "Punctuation rule or convention",
      originalIssueType := lowerStr issueType }
  else if lowerStr issueType == "style" ||
          hasSub "style" (lowerStr ruleId) ||
          hasSub "redundancy" (lowerStr ruleId) ||
          hasSub "wordiness" (lowerStr ruleId) then
    { category := "style", confidence := 0.70, severity := "low",
      explanation := "Style suggestion for improved readability",
      originalIssueType := lowerStr issueType }
  else
    { category := "other", confidence := 0.5, severity := "medium",
      explanation := "General writing suggestion",
      originalIssueType := lowerStr issueType }

/-- Written from the spec's words (section 4.1, the 5-step ordered rule
chain, first match wins, case-insensitive): the (category, confidence,
severity) triple the spec prescribes for a given `ruleId`/`issueType`
pair.  Kept separate from `enhance_match_classification` so the two can
be compared. -/
def classifySpecChain (ruleId issueType : String) : String × ℚ × String :=
  if lowerStr issueType == "misspelling" ||
     hasSub "spell" (lowerStr ruleId) ||
     hasSub "morfologic" (lowerStr ruleId) ||
     hasSub "hunspell" (lowerStr ruleId) then
    ("spelling", 0.95, "high")
  else if lowerStr issueType == "grammar" ||
          hasSub "grammar" (lowerStr ruleId) ||
          hasSub "agreement" (lowerStr ruleId) ||
          hasSub "verb" (lowerStr ruleId) ||
          hasSub "tense" (lowerStr ruleId) then
    ("grammar", 0.90, "high")
  else if hasSub "punct" (lowerStr ruleId) ||
          hasSub "comma" (lowerStr ruleId) ||
          hasSub "apostrophe" (lowerStr ruleId) then
    ("punctuation", 0.85, "medium")
  else if lowerStr issueType == "style" ||
          hasSub "style" (lowerStr ruleId) ||
          hasSub "redundancy" (lowerStr ruleId) ||
          hasSub "wordiness" (lowerStr ruleId) then
    ("style", 0.70, "low")
  else
    ("other", 0.5, "medium")

example : (enhance_match_classification "MORFOLOGIK_RULE_EN_US" "misspelling").category = "spelling" := by decide
example : (enhance_match_classification "" "spelling").category = "other" := by decide
example : (enhance_match_classification "COMMA_SPLICE" "").category = "punctuation" := by decide
example : (enhance_match_classification "X" "STYLE").originalIssueType = "style" := by decide

/-- Python `\w` (word character), ASCII fragment: letters, digits,
underscore. -/
def isWordChar (c : Char) : Bool :=
  c.isAlphanum || c == '_'

/-- Sentence-terminator characters of the `[.!?]+` pattern in
`calculate_text_metrics`. -/
def isSentenceChar (c : Char) : Bool :=
  c == '.' || c == '!' || c == '?'

/-- Helper: collects the maximal runs of characters satisfying `p`,
left to right; `acc` holds the (reversed) run in progress. -/
def maximalRunsAux (p : Char → Bool) : List Char → List Char → List (List Char)
  | [], acc => if acc.isEmpty then [] else [acc.reverse]
  | c :: rest, acc =>
    if p c then maximalRunsAux p rest (c :: acc)
    else if acc.isEmpty then maximalRunsAux p rest []
    else acc.reverse :: maximalRunsAux p rest []

/-- The maximal runs of characters satisfying `p`, in order.  For
`p = isWordChar` this models `re.findall(r'\b\w+\b', text)`; the length
filter on the result models `re.findall(r'\b\w{7,}\b', text)`. -/
def maximalRuns (p : Char → Bool) (cs : List Char) : List (List Char) :=
  maximalRunsAux p cs []

/-- Models Python `text.split('\n\n')`: left-to-right non-overlapping
split on two consecutive newline characters. -/
def splitOnBlankLine : List Char → List (List Char)
  | [] => [[]]
  | '\n' :: '\n' :: rest => [] :: splitOnBlankLine rest
  | c :: rest =>
    match splitOnBlankLine rest with
    | [] => [[c]]
    | p :: ps => (c :: p) :: ps

/-- Length of the text with all whitespace removed: models
`len(re.sub(r'\s+', '', text))`. -/
def stripLen (text : String) : Nat :=
  (text.data.filter (fun c => !c.isWhitespace)).length


/-- Models Python `round(x, 1)` on exact rationals: round to the nearest
tenth, ties to even. -/
def round1 (q : ℚ) : ℚ :=
  if q * 10 - ⌊q * 10⌋ < 1/2 then (⌊q * 10⌋ : ℚ) / 10
  else if 1/2 < q * 10 - ⌊q * 10⌋ then ((⌊q * 10⌋ : ℚ) + 1) / 10
  else if ⌊q * 10⌋ % 2 = 0 then (⌊q * 10⌋ : ℚ) / 10 else ((⌊q * 10⌋ : ℚ) + 1) / 10

/-- `len(re.findall(r'\b\w+\b', text))` (app.py line 226). -/
def wordCount (text : String) : Nat :=
  (maximalRuns isWordChar text.data).length

/-- `len(re.findall(r'[.!?]+', text))` (app.py line 227). -/
def sentenceCount (text : String) : Nat :=
  (maximalRuns isSentenceChar text.data).length

/-- `len([p for p in text.split('\n\n') if p.strip()])` (app.py line 228). -/
def paragraphCount (text : String) : Nat :=
  ((splitOnBlankLine text.data).filter
    (fun p => p.any (fun c => !c.isWhitespace))).length

/-- `len(re.findall(r'\b\w{7,}\b', text))` (app.py line 235): maximal
word-character runs of length at least 7. -/
def complexWordCount (text : String) : Nat :=
  ((maximalRuns isWordChar text.data).filter (fun r => 7 ≤ r.length)).length

/-- The metrics dictionary returned by `calculate_text_metrics`
(app.py lines 214-251). -/
structure TextMetrics where
  words : Nat
  sentences : Nat
  paragraphs : Nat
  avgWordsPerSentence : ℚ
  avgCharsPerWord : ℚ
  complexWords : Nat
  readabilityScore : ℚ
deriving DecidableEq

/-- Embedding of `calculate_text_metrics` (app.py lines 201-251).  Counts
words as maximal word-character runs (`\b\w+\b`), sentences as maximal
runs of `[.!?]`, paragraphs as non-blank blocks of a `'\n\n'` split; the
two averages are rounded to one decimal place in the returned record
(`round(x, 1)`), the readability score is clamped into [0, 100].  The
source computes each intermediate once and reuses it; here the helper
functions are inlined at each use, which is semantically identical. -/
def calculate_text_metrics (text : String) : TextMetrics :=
  if text.isEmpty then
    { words := 0, sentences := 0, paragraphs := 0, avgWordsPerSentence := 0,
      avgCharsPerWord := 0, complexWords := 0, readabilityScore := 0 }
  else
    { words := wordCount text
      sentences := sentenceCount text
      paragraphs := max (paragraphCount text) 1
      avgWordsPerSentence :=
        round1 ((wordCount text : ℚ) / ((max (sentenceCount text) 1 : ℕ) : ℚ))
      avgCharsPerWord :=
        round1 ((stripLen text : ℚ) / ((max (wordCount text) 1 : ℕ) : ℚ))
      complexWords := complexWordCount text
      readabilityScore :=
        max 0 (min 100
          (if 0 < wordCount text ∧ 0 < sentenceCount text then
            206.835
              - 1.015 * ((wordCount text : ℚ) / ((max (sentenceCount text) 1 : ℕ) : ℚ))
              - 84.6 * ((stripLen text : ℚ) / ((max (wordCount text) 1 : ℕ) : ℚ))
          else 0)) }

example : wordCount "Hello world. How are you?" = 5 := by decide
example : sentenceCount "Hello world. How are you?" = 2 := by decide
example : (calculate_text_metrics "a. ! ?").avgWordsPerSentence = 3/10 := by
  simp only [calculate_text_metrics,
    (by decide : ("a. ! ?".isEmpty) = false),
    (by decide : wordCount "a. ! ?" = 1),
    (by decide : sentenceCount "a. ! ?" = 3)]
  norm_num [round1]
example : (calculate_text_metrics "").readabilityScore = 0 := by
  simp [calculate_text_metrics, (by decide : ("".isEmpty) = true)]

/-- A raw replacement suggestion as supplied by the external engine:
either a bare string or an object carrying a `value` attribute (possibly
absent or `None`/empty, modelled as `none` / `some`); `repr` is the
object's `str(...)` rendering, used as the fallback. -/
inductive RawReplacement where
  | bare (s : String)
  | obj (value : Option String) (repr : String)
deriving DecidableEq

/-- The normalized replacement entry `{"value": ...}` emitted by the
assembly loop (app.py lines 354-359). -/
structure NormalizedReplacement where
  value : String
deriving DecidableEq

/-- Normalization of one replacement (app.py lines 354-359): a bare
string becomes its own value; an object contributes
`getattr(replacement, "value", None) or str(replacement)` — the `value`
attribute when present and non-empty, else the fallback rendering. -/
def normalizeReplacement : RawReplacement → NormalizedReplacement
  | .bare s => { value := s }
  | .obj v r =>
    match v with
    | some s => if s.isEmpty then { value := r } else { value := s }
    | none => { value := r }

/-- A match record from the external engine, as probed by the assembly
loop.  Fields the source reads by direct attribute access
(`match.message`, `match.offset`, `match.errorLength`, `match.context`,
`match.ruleId`) are `Option`s whose `none` models a missing attribute
(an `AttributeError` in the source, caught by the per-match handler);
fields read via `getattr(..., default)` carry their default at `none`
and never fail. -/
structure MatchRecord where
  message : Option String
  offset : Option Nat
  errorLength : Option Nat
  context : Option String
  ruleId : Option String
  shortMessage : Option String
  ruleIssueType : Option String
  ruleCategory : Option String
  offsetInContext : Option Nat
  contextOffset : Option Nat
  replacements : List RawReplacement
  url : Option String
deriving DecidableEq

/-- Python `a or b` for an optional numeric attribute: the value when
present and non-zero, else the fallback (`0` is falsy in Python). -/
def orNum (a : Option Nat) (b : Nat) : Nat :=
  match a with
  | some n => if n = 0 then b else n
  | none => b

/-- Python `a or b` for an optional string attribute: the value when
present and non-empty, else the fallback (`''` is falsy in Python). -/
def orStr (a : Option String) (b : String) : String :=
  match a with
  | some s => if s.isEmpty then b else s
  | none => b

/-- One enriched result object of the `/api/check` response
(app.py lines 365-390). -/
structure MatchResult where
  message : String
  shortMessage : String
  offset : Nat
  length : Nat
  contextText : String
  contextOffset : Nat
  ruleId : String
  ruleIssueType : String
  ruleCategory : Option String
  ruleUrl : Option String
  replacements : List NormalizedReplacement
  classification : Classification
deriving DecidableEq

/-- The body of the per-match `try` block of `api_check`
(app.py lines 342-392): extract the match's fields, normalize and
truncate the replacements to the first 5, classify, and build the result
object.  Returns `none` when a directly-accessed attribute is missing,
modelling the exception the source catches to skip the match. -/
def processMatch (m : MatchRecord) : Option MatchResult :=
  match m.message, m.offset, m.errorLength, m.context, m.ruleId with
  | some msg, some off, some len, some ctx, some rid =>
    some
      { message := msg
        shortMessage := orStr m.shortMessage ""
        offset := off
        length := len
        contextText := ctx
        contextOffset := orNum m.offsetInContext (orNum m.contextOffset 0)
        ruleId := rid
        ruleIssueType := m.ruleIssueType.getD ""
        ruleCategory := m.ruleCategory
        ruleUrl := m.url
        replacements := (m.replacements.map normalizeReplacement).take 5
        classification := enhance_match_classification rid (m.ruleIssueType.getD "") }
  | _, _, _, _, _ => none

/-- The match-processing loop of `api_check` (app.py lines 340-396):
each match is enriched inside a `try`/`except` that skips the match on
failure and continues with the rest. -/
def processBatch (ms : List MatchRecord) : List MatchResult :=
  ms.filterMap processMatch

/-- The `text` field of the request body: absent, a string, or present
with a non-string value. -/
inductive TextField where
  | missing
  | str (s : String)
  | nonString
deriving DecidableEq

/-- Responses of `api_check`: a normal check result (HTTP 200) or an
error with its HTTP status and message. -/
inductive ApiResponse where
  | ok (results : List MatchResult) (language : String) (textLength : Nat)
      (metrics : TextMetrics)
  | error (status : Nat) (msg : String)
deriving DecidableEq

/-- True exactly on the error responses. -/
def isErrorResp : ApiResponse → Bool
  | .error _ _ => true
  | .ok _ _ _ _ => false

/-- The configured text length limit (app.py line 35, default). -/
def TEXT_MAX_CHARS : Nat := 10000

/-- Embedding of the request handling of `api_check`
(app.py lines 289-408).  `data.get("text", "")` defaults a missing text
field to the empty string before the `isinstance(text, str)` check; the
external engine is abstracted by `toolOk` (did `get_tool` succeed) and
`checkResult` (`none` models `tool.check` raising).  `textLength` is the
Python `len(text)`, i.e. the number of characters. -/
def api_check (textField : TextField) (language : String) (toolOk : Bool)
    (checkResult : Option (List MatchRecord)) : ApiResponse :=
  match textField with
  | .nonString => .error 400 "Invalid 'text' - must be string"
  | _ =>
    let text := match textField with | .str s => s | _ => ""
    if text.length = 0 then
      .ok [] language 0 (calculate_text_metrics "")
    else if TEXT_MAX_CHARS < text.length then
      .error 413 "Text exceeds limit of 10000 characters"
    else if !toolOk then
      .error 500 "Language tool initialization failed"
    else
      match checkResult with
      | none => .error 500 "Text checking failed"
      | some ms =>
        .ok (processBatch ms) language text.length
          (calculate_text_metrics text)

/-- Claim C1: for every pair of strings (ruleId, issueType), classify is
total (it always returns a Classification) and its (category, confidence,
severity) result equals the spec's 5-step ordered rule chain applied
case-insensitively, first match wins. -/
theorem C1_classification_follows_spec_chain (ruleId issueType : String) :
    ((enhance_match_classification ruleId issueType).category,
     (enhance_match_classification ruleId issueType).confidence,
     (enhance_match_classification ruleId issueType).severity) =
      classifySpecChain ruleId issueType := by
  unfold enhance_match_classification classifySpecChain
  repeat' split <;> simp_all

/-- Claim C4 (counterexample): the pair (ruleId = "", issueType =
"spelling") has an issueType containing "spell" case-insensitively, yet
classify returns category "other", not "spelling": only equality with
"misspelling" (or a ruleId keyword) triggers the spelling rule. -/
theorem C4_counterexample_issue_type_spell :
    hasSub "spell" (lowerStr "spelling") = true ∧
    (enhance_match_classification "" "spelling").category ≠ "spelling" := by
  decide

/-- Claim C4 (amended): for every pair whose ruleId contains "spell"
case-insensitively, classify returns category = spelling,
confidence = 0.95, severity = high.  (An issueType merely containing
"spell" is not sufficient; it must equal "misspelling".) -/
theorem C4_rule_id_spell_gives_spelling (ruleId issueType : String)
    (h : hasSub "spell" (lowerStr ruleId) = true) :
    (enhance_match_classification ruleId issueType).category = "spelling" ∧
    (enhance_match_classification ruleId issueType).confidence = 0.95 ∧
    (enhance_match_classification ruleId issueType).severity = "high" := by
  unfold enhance_match_classification
  simp [h]

/-- Claim C4 (witness): the amended theorem applied at the concrete pair
(ruleId = "TYPO_SPELLER_RULE", issueType = ""). -/
theorem C4_rule_id_spell_gives_spelling_witness :
    hasSub "spell" (lowerStr "TYPO_SPELLER_RULE") = true ∧
    ((enhance_match_classification "TYPO_SPELLER_RULE" "").category = "spelling" ∧
     (enhance_match_classification "TYPO_SPELLER_RULE" "").confidence = 0.95 ∧
     (enhance_match_classification "TYPO_SPELLER_RULE" "").severity = "high") :=
  ⟨by decide, C4_rule_id_spell_gives_spelling "TYPO_SPELLER_RULE" "" (by decide)⟩

/-- Claim C6 (counterexample): for issueType "STYLE" the returned
originalIssueType is "style", not the input unchanged: the source stores
the lowercased issue type, not a passthrough. -/
theorem C6_counterexample_issue_type_lowered :
    (enhance_match_classification "" "STYLE").originalIssueType ≠ "STYLE" := by
  decide

/-- Claim C6 (amended): for every pair of strings (ruleId, issueType),
the originalIssueType field of the returned Classification equals the
lowercased input issueType. -/
theorem C6_original_issue_type_lowercased (ruleId issueType : String) :
    (enhance_match_classification ruleId issueType).originalIssueType =
      lowerStr issueType := by
  unfold enhance_match_classification
  (repeat' split) <;> rfl

/-- Claim C2 (counterexample): for the text "a. ! ?" (1 word, 3 sentence
runs) the returned avgWordsPerSentence is 0.3, not the exact ratio 1/3:
the source rounds the averages to one decimal before returning them. -/
theorem C2_counterexample_avg_rounded :
    (calculate_text_metrics "a. ! ?").avgWordsPerSentence ≠
      ((calculate_text_metrics "a. ! ?").words : ℚ) /
        ((max (calculate_text_metrics "a. ! ?").sentences 1 : ℕ) : ℚ) := by
  simp only [calculate_text_metrics, (by decide : ("a. ! ?".isEmpty) = false),
    (by decide : wordCount "a. ! ?" = 1), (by decide : sentenceCount "a. ! ?" = 3),
    (by decide : max 3 1 = 3)]
  norm_num [round1]

/-- Claim C2 (amended): for every text, the avgWordsPerSentence returned
by computeMetrics equals wordCount / max(sentenceCount, 1) rounded to one
decimal place, and the avgCharsPerWord returned equals (character count
of the text with all whitespace removed) / max(wordCount, 1) rounded to
one decimal place. -/
theorem C2_averages_are_rounded_ratios (text : String) :
    (calculate_text_metrics text).avgWordsPerSentence =
      round1 (((calculate_text_metrics text).words : ℚ) /
        ((max (calculate_text_metrics text).sentences 1 : ℕ) : ℚ)) ∧
    (calculate_text_metrics text).avgCharsPerWord =
      round1 ((stripLen text : ℚ) /
        ((max (calculate_text_metrics text).words 1 : ℕ) : ℚ)) := by
  unfold calculate_text_metrics
  split
  case isTrue h =>
    have h0 : text = "" := (String.isEmpty_iff text).mp h
    subst h0
    constructor <;> norm_num [round1, (by decide : stripLen "" = 0)]
  case isFalse h =>
    exact ⟨rfl, rfl⟩

/-- Claim C3 (counterexample): for the text "Hello world. How are you?"
the computed wordCount is 5 ("Hello", "world", "How", "are", "you"), not
the 6 the claim states. -/
theorem C3_counterexample_word_count :
    (calculate_text_metrics "Hello world. How are you?").words ≠ 6 := by
  simp only [calculate_text_metrics,
    (by decide : ("Hello world. How are you?".isEmpty) = false),
    (by decide : wordCount "Hello world. How are you?" = 5)]
  decide

/-- Claim C3 (amended): computeMetrics applied to the text
"Hello world. How are you?" returns wordCount = 5, sentenceCount = 2,
and avgWordsPerSentence = 2.5. -/
theorem C3_example_metrics :
    (calculate_text_metrics "Hello world. How are you?").words = 5 ∧
    (calculate_text_metrics "Hello world. How are you?").sentences = 2 ∧
    (calculate_text_metrics "Hello world. How are you?").avgWordsPerSentence = 5/2 := by
  simp only [calculate_text_metrics,
    (by decide : ("Hello world. How are you?".isEmpty) = false),
    (by decide : wordCount "Hello world. How are you?" = 5),
    (by decide : sentenceCount "Hello world. How are you?" = 2),
    (by decide : max 2 1 = 2)]
  norm_num [round1]

/-- Claim C5: for every input text the returned readabilityScore lies in
[0, 100]; when wordCount > 0 and sentenceCount > 0 it equals
206.835 − 1.015·avgWordsPerSentence − 84.6·avgCharsPerWord (on the exact,
unrounded averages) clamped into [0, 100], and otherwise it equals 0. -/
theorem C5_readability_clamped (text : String) :
    0 ≤ (calculate_text_metrics text).readabilityScore ∧
    (calculate_text_metrics text).readabilityScore ≤ 100 ∧
    (calculate_text_metrics text).readabilityScore =
      (if 0 < (calculate_text_metrics text).words ∧
          0 < (calculate_text_metrics text).sentences then
        max 0 (min 100 (206.835
          - 1.015 * (((calculate_text_metrics text).words : ℚ) /
              ((max (calculate_text_metrics text).sentences 1 : ℕ) : ℚ))
          - 84.6 * ((stripLen text : ℚ) /
              ((max (calculate_text_metrics text).words 1 : ℕ) : ℚ))))
       else 0) := by
  unfold calculate_text_metrics
  split
  case isTrue h =>
    refine ⟨le_refl 0, by norm_num, ?_⟩
    simp
  case isFalse h =>
    refine ⟨le_max_left 0 _, max_le (by norm_num) (le_trans (min_le_left _ _) (by norm_num)), ?_⟩
    by_cases hp : 0 < wordCount text ∧ 0 < sentenceCount text
    · rw [if_pos hp, if_pos hp]
    · rw [if_neg hp, if_neg hp]
      norm_num

/-- Claim C10: for every input text, the complexWords count returned by
computeMetrics is at most its wordCount: every maximal word-character run
of length at least 7 is one of the counted word runs. -/
theorem C10_complex_words_le_words (text : String) :
    (calculate_text_metrics text).complexWords ≤
      (calculate_text_metrics text).words := by
  unfold calculate_text_metrics
  split
  · exact le_refl 0
  · exact List.length_filter_le _ _

/-- Claim C7: for every MatchRecord whose replacements sequence has more
than 5 entries, the assembled result for that match contains exactly the
first 5 replacements in the order supplied, each normalized to a
`{value}` object (whether the source replacement is a bare string or an
object carrying a value field). -/
theorem C7_replacements_truncated_to_five (m : MatchRecord)
    (h : 5 < m.replacements.length) :
    ∀ r ∈ processMatch m,
      r.replacements = (m.replacements.take 5).map normalizeReplacement ∧
      r.replacements.length = 5 := by
  intro r hr
  unfold processMatch at hr
  split at hr
  · rw [Option.mem_def, Option.some_inj] at hr
    subst hr
    constructor
    · exact (List.map_take normalizeReplacement m.replacements 5).symm
    · rw [List.length_take, List.length_map]
      exact min_eq_left (le_of_lt h)
  · simp at hr

/-- A concrete match record with 8 replacement suggestions (a mix of bare
strings and value-carrying objects), used to witness claim C7. -/
def matchWithEightReplacements : MatchRecord :=
  { message := some "Possible typo detected"
    offset := some 2
    errorLength := some 4
    context := some "a tpyo here"
    ruleId := some "MORFOLOGIK_RULE_EN_US"
    shortMessage := some "Typo"
    ruleIssueType := some "misspelling"
    ruleCategory := some "TYPOS"
    offsetInContext := some 2
    contextOffset := none
    replacements := [.bare "typo", .obj (some "type") "Repl(type)", .bare "tempo",
                     .obj none "Repl(tip)", .bare "top", .bare "tap",
                     .obj (some "taupe") "Repl(taupe)", .bare "typos"]
    url := none }

/-- Claim C7 (witness): the truncation theorem applied to the concrete
record with 8 replacements. -/
theorem C7_replacements_truncated_to_five_witness :
    5 < matchWithEightReplacements.replacements.length ∧
    ∀ r ∈ processMatch matchWithEightReplacements,
      r.replacements =
        (matchWithEightReplacements.replacements.take 5).map normalizeReplacement ∧
      r.replacements.length = 5 :=
  ⟨by decide, C7_replacements_truncated_to_five matchWithEightReplacements (by decide)⟩

/-- Claim C8: for every batch in which extracting the fields of one
record fails (processMatch returns none for it), assembly still produces
the enriched results of the records before and after it, in order, with
only the failing record dropped. -/
theorem C8_bad_match_skipped (pre post : List MatchRecord) (bad : MatchRecord)
    (h : processMatch bad = none) :
    processBatch (pre ++ bad :: post) = processBatch pre ++ processBatch post := by
  unfold processBatch
  rw [List.filterMap_append]
  simp [List.filterMap_cons, h]

/-- A well-formed match record (all required attributes present), used to
witness claim C8. -/
def validMatchRecord : MatchRecord :=
  { message := some "Agreement error"
    offset := some 0
    errorLength := some 5
    context := some "He go there"
    ruleId := some "SUBJECT_VERB_AGREEMENT"
    shortMessage := none
    ruleIssueType := some "grammar"
    ruleCategory := some "GRAMMAR"
    offsetInContext := none
    contextOffset := some 3
    replacements := [.bare "goes"]
    url := some "https://example.org/rule" }

/-- A malformed match record: the required `message` attribute is
missing, so extracting its fields fails.  Used to witness claim C8. -/
def malformedMatchRecord : MatchRecord :=
  { message := none
    offset := some 1
    errorLength := some 2
    context := some "xx"
    ruleId := some "SOME_RULE"
    shortMessage := none
    ruleIssueType := none
    ruleCategory := none
    offsetInContext := none
    contextOffset := none
    replacements := []
    url := none }

/-- Claim C8 (witness): the skip theorem applied to a concrete batch of
one valid record, one malformed record, one valid record. -/
theorem C8_bad_match_skipped_witness :
    processMatch malformedMatchRecord = none ∧
    processBatch ([validMatchRecord] ++ malformedMatchRecord :: [matchWithEightReplacements]) =
      processBatch [validMatchRecord] ++ processBatch [matchWithEightReplacements] :=
  ⟨rfl, C8_bad_match_skipped [validMatchRecord] [matchWithEightReplacements]
    malformedMatchRecord rfl⟩

/-- Claim C9 (counterexample): a request whose text field is missing is
NOT rejected: `data.get("text", "")` defaults it to the empty string, so
the handler returns the normal empty-text result (HTTP 200), not an
invalid-input error. -/
theorem C9_counterexample_missing_text_ok :
    isErrorResp (api_check .missing "en-US" true (some [])) = false := by
  rfl

/-- Claim C9 (amended): a request whose text field is present but not a
string is request-fatal: the check returns the 400 invalid-input error
and no normal result; a missing text field is instead treated as the
empty string and yields the normal empty check result. -/
theorem C9_nonstring_text_rejected (language : String) (toolOk : Bool)
    (checkResult : Option (List MatchRecord)) :
    api_check .nonString language toolOk checkResult =
      .error 400 "Invalid 'text' - must be string" ∧
    api_check .missing language toolOk checkResult =
      .ok [] language 0 (calculate_text_metrics "") :=
  ⟨rfl, rfl⟩
